import Mathlib

/-!
Verification of the Nibbl meal-planning agent.

Shallow embedding of the deterministic core of the repository:
ingredient merging (`src/picnic/cart_filler.py`, `src/planner/formatter.py`,
`src/exporter.py`), preference reconciliation
(`src/planner/preference_engine.py`), cart reconciliation
(`src/picnic/cart_filler.py`), and the orchestrator state machine
(`src/orchestrator.py`).  Python floats are modelled as rationals, dicts
with insertion order as association lists, and calls to external
collaborators (Claude, the Picnic API, the message channel) as explicit
oracle parameters.  All definitions are translated from the source.
-/

namespace Nibbl

/-- `Ingredient` dataclass from `src/models.py` (quantities as rationals,
default field values as in the dataclass). -/
structure Ingredient where
  name : String
  quantity : ℚ
  unit : String
  category : String := "other"
  optional : Bool := false
  already_available : Bool := false
  picnic_product_id : Option String := none
  picnic_product_name : Option String := none
  picnic_added_to_cart : Bool := false
  search_status : String := "pending"
  deriving Repr, DecidableEq

/-- Python `str.lower()` (ASCII case folding, as used on the Dutch/English
ingredient names in this repository). -/
def pyLower (s : String) : String := ⟨s.data.map Char.toLower⟩

/-- Python `str.strip()`: drop whitespace from both ends. -/
def pyStrip (s : String) : String :=
  ⟨((s.data.dropWhile Char.isWhitespace).reverse.dropWhile Char.isWhitespace).reverse⟩

/-- The grouping key used by every merge: `ing.name.lower().strip()`. -/
def ikey (i : Ingredient) : String := pyStrip (pyLower i.name)

/-- Lookup in an insertion-ordered association list (Python `dict` access /
`key in d`). -/
def assocFind {α : Type} (m : List (String × α)) (k : String) : Option α :=
  (m.find? (fun p => p.1 = k)).map (fun p => p.2)

/-- Assignment `d[key] = v` on a key that is already bound: Python dicts keep
the original insertion position. -/
def assocReplace {α : Type} (m : List (String × α)) (k : String) (v : α) :
    List (String × α) :=
  m.map (fun p => if p.1 = k then (k, v) else p)

/-- Python dict assignment `d[key] = v`: overwrite in place when bound,
append otherwise. -/
def assocInsert {α : Type} (m : List (String × α)) (k : String) (v : α) :
    List (String × α) :=
  if (assocFind m k).isSome then assocReplace m k v else m ++ [(k, v)]

/-- One iteration of the loop in `CartFiller._merge_ingredients`
(`src/picnic/cart_filler.py` lines 178-197): same key with the same unit sums
quantities and ANDs the two flags; otherwise `setdefault` inserts only when
the key is absent. -/
def cartMergeStep (m : List (String × Ingredient)) (ing : Ingredient) :
    List (String × Ingredient) :=
  let key := ikey ing
  match assocFind m key with
  | some ex =>
      if ex.unit = ing.unit then
        assocReplace m key
          { name := ing.name
            quantity := ex.quantity + ing.quantity
            unit := ing.unit
            category := ing.category
            optional := ing.optional && ex.optional
            already_available := ing.already_available && ex.already_available }
      else m
  | none =>
      m ++ [(key,
        { name := ing.name
          quantity := ing.quantity
          unit := ing.unit
          category := ing.category
          optional := ing.optional
          already_available := ing.already_available })]

/-- `CartFiller._merge_ingredients` (`src/picnic/cart_filler.py` lines
174-199): fold the loop over the input and return `list(merged.values())`. -/
def merge_ingredients (l : List Ingredient) : List Ingredient :=
  (l.foldl cartMergeStep []).map (fun p => p.2)

/-- One iteration of the merge loop in `format_full_ingredient_list`
(`src/planner/formatter.py` lines 77-89).  The summed copy carries only
name/quantity/unit/category/optional — `already_available` is not passed to
the constructor, so it takes the dataclass default `False`.  The
`setdefault` branch stores the original ingredient object. -/
def formatMergeStep (m : List (String × Ingredient)) (ing : Ingredient) :
    List (String × Ingredient) :=
  let key := ikey ing
  match assocFind m key with
  | some ex =>
      if ex.unit = ing.unit then
        assocReplace m key
          { name := ing.name
            quantity := ex.quantity + ing.quantity
            unit := ing.unit
            category := ing.category
            optional := ing.optional && ex.optional }
      else m
  | none => m ++ [(key, ing)]

/-- The merge performed by `format_full_ingredient_list`
(`src/planner/formatter.py` lines 73-89): iterate over every recipe's
ingredient list and merge into an insertion-ordered dict. -/
def format_full_merge (recipes : List (List Ingredient)) : List Ingredient :=
  (recipes.flatten.foldl formatMergeStep []).map (fun p => p.2)

/-- One iteration of `_dedup_ingredients` (`src/exporter.py` lines 84-101).
State: `seen` maps a normalized name to an index into `result`; on a same-key
same-unit hit the entry at that index is replaced by a summed copy, otherwise
`seen[key]` is (re)pointed at a fresh entry appended to `result`.  (The
`result.get? idx = none` arm is unreachable: stored indices always lie inside
`result`.) -/
def dedupStep (st : List (String × Nat) × List Ingredient) (ing : Ingredient) :
    List (String × Nat) × List Ingredient :=
  let seen := st.1
  let result := st.2
  let key := ikey ing
  let fresh : Ingredient :=
    { name := ing.name
      quantity := ing.quantity
      unit := ing.unit
      category := ing.category }
  match assocFind seen key with
  | some idx =>
      match result.get? idx with
      | some ex =>
          if ex.unit = ing.unit then
            (seen,
             result.set idx
              { name := ex.name
                quantity := ex.quantity + ing.quantity
                unit := ex.unit
                category := ex.category })
          else (assocInsert seen key result.length, result ++ [fresh])
      | none => (assocInsert seen key result.length, result ++ [fresh])
  | none => (assocInsert seen key result.length, result ++ [fresh])

/-- `_dedup_ingredients` (`src/exporter.py` lines 80-102). -/
def dedup_ingredients (l : List Ingredient) : List Ingredient :=
  (l.foldl dedupStep ([], [])).2

/-! ## Preference reconciliation (`src/planner/preference_engine.py`) -/

/-- `Preference` dataclass from `src/models.py` (fields used by the
reconciliation loop; confidence as a rational). -/
structure Preference where
  member_id : String
  category : String
  detail : String
  confidence : ℚ := 1/2
  id : Option Nat := none
  deriving Repr, DecidableEq

/-- Python `needle in hay` on strings: substring containment. -/
def strContains (hay needle : String) : Bool := decide (needle.data <:+: hay.data)

/-- `PreferenceEngine._find_matching` (`src/planner/preference_engine.py`
lines 111-121): first existing preference with an equal category whose
detail is a case-insensitive substring of the new detail or vice versa. -/
def find_matching (existing : List Preference) (detail category : String) :
    Option Preference :=
  let dl := pyLower detail
  existing.find? (fun p =>
    p.category == category &&
      (strContains (pyLower p.detail) dl || strContains dl (pyLower p.detail)))

/-- One extracted fact `{category, detail, confidence}` from the extraction
collaborator's response (`data.get("preferences", [])`); a missing
confidence key defaults to `0.5` at the use sites (`p.get("confidence", 0.5)`). -/
structure Fact where
  category : String
  detail : String
  confidence : Option ℚ := none
  deriving Repr, DecidableEq

/-- In-run state of `PreferenceEngine.extract_and_store`: the in-memory
`existing` list, the member's stored rows (`db`), the id the store will hand
to the next inserted row, and the `new_prefs` accumulator. -/
structure PrefState where
  existing : List Preference
  db : List Preference
  nextId : Nat
  new_prefs : List Preference
  deriving Repr, DecidableEq

/-- `Database.update_preference_confidence`: update the row with the given
id in place. -/
def updateConfidence (db : List Preference) (i : Nat) (c : ℚ) : List Preference :=
  db.map (fun p => if p.id = some i then { p with confidence := c } else p)

/-- The preference row built for an unmatched fact: the `Preference(...)`
constructor call of `extract_and_store` with the id handed out by
`db.add_preference`. -/
def newPref (member_id : String) (st : PrefState) (f : Fact) : Preference :=
  { member_id := member_id, category := f.category, detail := f.detail
    confidence := f.confidence.getD (1/2), id := some st.nextId }

/-- One iteration of the fact loop in `PreferenceEngine.extract_and_store`
(`src/planner/preference_engine.py` lines 60-78): on a match with a
persisted id, escalate the stored confidence to
`min(1.0, max(existing, new) + 0.1)` and add no row; otherwise persist a new
row and append it to the in-run `existing` list. -/
def storeFact (member_id : String) (st : PrefState) (f : Fact) : PrefState :=
  match find_matching st.existing f.detail f.category with
  | some m =>
      match m.id with
      | some i =>
          { st with
            db := updateConfidence st.db i
              (min 1 (max m.confidence (f.confidence.getD (1/2)) + 1/10)) }
      | none =>
          { existing := st.existing ++ [newPref member_id st f]
            db := st.db ++ [newPref member_id st f]
            nextId := st.nextId + 1
            new_prefs := st.new_prefs ++ [newPref member_id st f] }
  | none =>
      { existing := st.existing ++ [newPref member_id st f]
        db := st.db ++ [newPref member_id st f]
        nextId := st.nextId + 1
        new_prefs := st.new_prefs ++ [newPref member_id st f] }

/-- The storing phase of `PreferenceEngine.extract_and_store`
(`src/planner/preference_engine.py` lines 59-78), after the extraction
collaborator returned the fact list: fold the fact loop over the member's
stored preferences. -/
def extract_and_store (member_id : String) (existing : List Preference)
    (nextId : Nat) (facts : List Fact) : PrefState :=
  facts.foldl (storeFact member_id)
    { existing := existing, db := existing, nextId := nextId, new_prefs := [] }

/-! ## Cart reconciliation (`src/picnic/cart_filler.py`) -/

/-- The product-selection dict returned by `_select_best_match` (parsed from
the collaborator's JSON).  Every field is optional; `.get` defaults are
applied at the use sites, exactly as in the source. -/
structure ProductMatch where
  product_id : Option String := none
  product_name : Option String := none
  count : Option Nat := none
  confidence : Option ℚ := none
  note : Option String := none
  deriving Repr, DecidableEq

/-- Python truthiness of `match.get("product_id")`: false for a missing/null
id and for the empty string. -/
def truthyStr : Option String → Bool
  | none => false
  | some s => !(s == "")

/-- The acceptance test of `CartFiller.fill_cart` line 50:
`match and match.get("product_id") and match.get("confidence", 0) > 0.5`. -/
def accepts (m? : Option ProductMatch) : Bool :=
  match m? with
  | none => false
  | some m => truthyStr m.product_id && decide ((1/2 : ℚ) < m.confidence.getD 0)

/-- A Picnic search result; only the catalog id (`r.get("id", "")`) is
inspected by the embedded code, the remaining fields only feed prompt text. -/
structure Product where
  id : String := ""
  deriving Repr, DecidableEq

/-- The external collaborators used by the cart filler:
`_generate_search_terms` (never raises — parse errors fall back to the bare
name), `picnic.search` (may raise `PicnicAPIError`, modelled as `.error`),
`_select_best_match` (never raises — errors return `None`), and
`picnic.add_product` (`some e` models a raised `PicnicAPIError`). -/
structure CartOracle where
  terms : Ingredient → List String
  searchTerm : String → Except String (List Product)
  select : Ingredient → List Product → Option ProductMatch
  add : String → Nat → Option String

/-- The term loop of `_search_and_match` (`src/picnic/cart_filler.py` lines
91-105): try each search term in order, skip failing terms, deduplicate
results by catalog id across terms, and stop at the first term that leaves
the accumulated result list non-empty. -/
def gatherSearch (searchTerm : String → Except String (List Product)) :
    List String → List Product → List String → List Product
  | [], acc, _ => acc
  | t :: ts, acc, seen =>
      match searchTerm t with
      | .error _ => gatherSearch searchTerm ts acc seen
      | .ok rs =>
          let step := rs.foldl
            (fun (p : List Product × List String) r =>
              if p.2.contains r.id then p else (p.1 ++ [r], p.2 ++ [r.id]))
            (acc, seen)
          if step.1.isEmpty then gatherSearch searchTerm ts step.1 step.2
          else step.1

/-- `CartFiller._search_and_match` (`src/picnic/cart_filler.py` lines
81-116): consult the in-memory match cache keyed by the normalized name; on
a miss, search, select, and cache the selection whenever it carries a truthy
product id (no confidence check here).  Returns the selection together with
the updated cache. -/
def search_and_match (o : CartOracle)
    (cache : List (String × ProductMatch)) (ing : Ingredient) :
    Option ProductMatch × List (String × ProductMatch) :=
  let key := ikey ing
  match assocFind cache key with
  | some m => (some m, cache)
  | none =>
      let all_results := gatherSearch o.searchTerm (o.terms ing) [] []
      if all_results.isEmpty then (none, cache)
      else
        match o.select ing (all_results.take 15) with
        | none => (none, cache)
        | some m =>
            (some m,
             if truthyStr m.product_id then assocInsert cache key m else cache)

/-- `CartReport` (`src/models.py`) together with the catalog cart contents
(pairs added via `picnic.add_product`) and the process-lifetime match
cache. -/
structure CartState where
  added : List (Ingredient × ProductMatch) := []
  not_found : List (Ingredient × String) := []
  skipped : List Ingredient := []
  errors : List (Ingredient × String) := []
  cart : List (String × Nat) := []
  cache : List (String × ProductMatch) := []
  deriving Repr, DecidableEq

/-- One iteration of the loop in `CartFiller.fill_cart`
(`src/picnic/cart_filler.py` lines 42-70): skip already-available
ingredients; otherwise search-and-match, accept if a truthy product id comes
with confidence strictly above `0.5` (adding to the cart and the `added`
partition, with the resolution fields written onto the ingredient), record a
rejection in `not_found` with the collaborator's note, and record a
`PicnicAPIError` from `add_product` in `errors`. -/
def fillStep (o : CartOracle) (st : CartState) (ing : Ingredient) : CartState :=
  if ing.already_available then { st with skipped := st.skipped ++ [ing] }
  else
    let sm := search_and_match o st.cache ing
    let m? := sm.1
    let st := { st with cache := sm.2 }
    if accepts m? then
      match m? with
      | some m =>
          let pid := m.product_id.getD ""
          let cnt := m.count.getD 1
          match o.add pid cnt with
          | some e =>
              { st with errors :=
                  st.errors ++ [({ ing with search_status := "not_found" }, e)] }
          | none =>
              { st with
                cart := st.cart ++ [(pid, cnt)]
                added := st.added ++
                  [({ ing with
                        picnic_product_id := m.product_id
                        picnic_product_name := some (m.product_name.getD "")
                        picnic_added_to_cart := true
                        search_status := "found" }, m)] }
      | none => st
    else
      let note :=
        match m? with
        | some m => m.note.getD "No match found"
        | none => "No results"
      { st with not_found :=
          st.not_found ++ [({ ing with search_status := "not_found" }, note)] }

/-- `CartFiller.fill_cart` (`src/picnic/cart_filler.py` lines 33-79): merge
the ingredient demand with the cart-fill merge, then process each merged
ingredient in order, starting from a fresh report and the process-lifetime
cache `cache0`. -/
def fill_cart (o : CartOracle) (cache0 : List (String × ProductMatch))
    (ingredients : List Ingredient) : CartState :=
  (merge_ingredients ingredients).foldl (fillStep o) { cache := cache0 }

/-! ## Orchestrator state machine (`src/orchestrator.py`) -/

/-- `SessionState` enum from `src/models.py`. -/
inductive SessionState where
  | idle
  | collecting_preferences
  | generating_plan
  | awaiting_approval
  | compiling_ingredients
  | checking_pantry
  | filling_cart
  | cart_review
  | completed
  deriving Repr, DecidableEq

/-- `Recipe` dataclass from `src/models.py` (the fields the orchestrator's
recipe bookkeeping reads or writes). -/
structure RecipeM where
  id : String
  name : String := ""
  session_id : Option String := none
  ingredients : List Ingredient := []
  approved : Bool := false
  deriving Repr, DecidableEq

/-- `MealPlanSession` from `src/models.py`, with wall-clock instants as
rationals (hours). -/
structure Sess where
  id : String
  state : SessionState
  triggered_by : Option String := none
  state_entered_at : ℚ := 0
  created_at : ℚ := 0
  updated_at : ℚ := 0
  meal_plan : Option (List RecipeM) := none
  collected_wishes : List (String × List String) := []
  members_responded : List String := []
  deriving Repr, DecidableEq

/-- `MealPlanSession.transition_to` (`src/models.py` lines 151-154). -/
def transition_to (s : Sess) (st : SessionState) (now : ℚ) : Sess :=
  { s with state := st, state_entered_at := now, updated_at := now }

/-- The two timeout fields of `AgentConfig` (`src/config.py`), in hours. -/
structure AgentConfig where
  preference_timeout_hours : ℚ := 4
  pantry_timeout_hours : ℚ := 2
  deriving Repr, DecidableEq

/-- `Orchestrator.check_timeouts` (`src/orchestrator.py` lines 170-189),
reduced to the transition it forces: with an active session whose state is
`collecting_preferences` (resp. `checking_pantry`) and whose time in state
strictly exceeds the configured preference (resp. pantry) timeout, the
orchestrator enters `generating_plan` (resp. `filling_cart`) — the first
action of `_enter_generating_plan` / `_enter_filling_cart` is
`transition_to` that state.  In every other situation nothing happens. -/
def check_timeouts (cfg : AgentConfig) (now : ℚ) (session : Option Sess) :
    Option SessionState :=
  match session with
  | none => none
  | some s =>
      let elapsed := now - s.state_entered_at
      if s.state = SessionState.collecting_preferences ∧
          elapsed > cfg.preference_timeout_hours then
        some SessionState.generating_plan
      else if s.state = SessionState.checking_pantry ∧
          elapsed > cfg.pantry_timeout_hours then
        some SessionState.filling_cart
      else none

/-- `MemberRole` from `src/models.py`. -/
inductive Role where
  | parent
  | child
  deriving Repr, DecidableEq

/-- `FamilyMember` from `src/models.py`. -/
structure Member where
  id : String
  name : String := ""
  imessage_id : String
  role : Role
  deriving Repr, DecidableEq

/-- The outbound texts the embedded orchestrator fragments send, by message
key (`MESSAGES` table in `src/orchestrator.py`); a plan display carries the
recipe list passed to `format_meal_plan`. -/
inductive MsgContent where
  | ask_preferences
  | session_active
  | plan_display : List RecipeM → MsgContent
  | ask_approval
  | adjusting_plan
  | revision_failed
  deriving Repr, DecidableEq

/-- `Orchestrator.start_session` (`src/orchestrator.py` lines 191-209):
reject the trigger when a session exists in a non-idle, non-completed state
(answering the triggering member with the `session_active` text); otherwise
create a fresh session (`MealPlanSession.create`, state `idle`) and enter
`collecting_preferences` (`_enter_collecting_preferences`: transition, reset
the per-run collection fields, broadcast the preference prompt to every
family member).  Returns the resulting active session and the messages
sent. -/
def start_session (members : List Member) (newId : String) (now : ℚ)
    (session : Option Sess) (triggered_by : Option Member) :
    Option Sess × List (String × MsgContent) :=
  let startNew : Option Sess × List (String × MsgContent) :=
    let s0 : Sess :=
      { id := newId, state := SessionState.idle
        triggered_by := triggered_by.map (fun m => m.id)
        state_entered_at := now, created_at := now, updated_at := now }
    let s1 := { transition_to s0 SessionState.collecting_preferences now with
                  collected_wishes := [], members_responded := [] }
    (some s1, members.map (fun m => (m.imessage_id, MsgContent.ask_preferences)))
  match session with
  | some s =>
      if s.state ≠ SessionState.idle ∧ s.state ≠ SessionState.completed then
        (some s,
         match triggered_by with
         | some m => [(m.imessage_id, MsgContent.session_active)]
         | none => [])
      else startNew
  | none => startNew

/-- `Database.get_recipes_for_session`: the stored recipes tagged with the
session id. -/
def recipes_for_session (db : List RecipeM) (sid : String) : List RecipeM :=
  db.filter (fun r => r.session_id == some sid)

/-- `Database.delete_recipes_for_session` (`src/database.py` lines 618-631):
remove every recipe (with its ingredients) tagged with the session id. -/
def delete_recipes_for_session (db : List RecipeM) (sid : String) : List RecipeM :=
  db.filter (fun r => !(r.session_id == some sid))

/-- `Orchestrator._enter_awaiting_approval` (`src/orchestrator.py` lines
307-325): transition to `awaiting_approval`; display either the plan passed
in or, when none is passed, the recipes stored for the session; send the
formatted plan and the approval prompt to the first parent (nothing is sent
when no parent is configured). -/
def enter_awaiting_approval (db : List RecipeM) (s : Sess) (now : ℚ)
    (first_parent : Option Member) (plan : Option (List RecipeM)) :
    Sess × List (String × MsgContent) :=
  let s1 := transition_to s SessionState.awaiting_approval now
  let recipes :=
    match plan with
    | some rs => rs
    | none => recipes_for_session db s.id
  match first_parent with
  | some p =>
      (s1, [(p.imessage_id, MsgContent.plan_display recipes),
            (p.imessage_id, MsgContent.ask_approval)])
  | none => (s1, [])

/-- The `change_request` branch of `Orchestrator._handle_approval_message`
(`src/orchestrator.py` lines 505-531), with the revision collaborator's
outcome as a parameter (`.error` models a raised exception): announce the
adjustment, then on a non-empty revision delete the session's stored recipes,
persist the revised ones (tagged with the session id), and re-enter
`awaiting_approval` displaying them; on an empty revision re-enter
`awaiting_approval` displaying the untouched stored plan; on a failure leave
recipes and session untouched and send the `revision_failed` text.  Returns
the recipe store, the session, and the messages sent. -/
def handle_change_request (db : List RecipeM) (s : Sess) (member : Member)
    (first_parent : Option Member) (now : ℚ)
    (revised : Except String (List RecipeM)) :
    List RecipeM × Sess × List (String × MsgContent) :=
  let msgs0 := [(member.imessage_id, MsgContent.adjusting_plan)]
  match revised with
  | .ok rs =>
      if rs.isEmpty then
        let es := enter_awaiting_approval db s now first_parent none
        (db, es.1, msgs0 ++ es.2)
      else
        let db1 := delete_recipes_for_session db s.id
        let rs1 := rs.map (fun r => { r with session_id := some s.id })
        let db2 := db1 ++ rs1
        let s1 := { s with meal_plan := some rs1 }
        let es := enter_awaiting_approval db2 s1 now first_parent (some rs1)
        (db2, es.1, msgs0 ++ es.2)
  | .error _ =>
      (db, s, msgs0 ++ [(member.imessage_id, MsgContent.revision_failed)])

/-- `ConversationEntry` from `src/models.py`. -/
structure LogEntry where
  session_id : Option String
  member_id : String
  direction : String
  message_text : String
  imessage_rowid : Option Nat := none
  deriving Repr, DecidableEq

/-- `IncomingMessage` from `src/models.py` (the fields
`handle_incoming_message` reads). -/
structure InMsg where
  rowid : Nat
  text : String
  sender_id : String
  deriving Repr, DecidableEq

/-- The orchestrator's observable state for message handling: the active
session and the persisted conversation log. -/
structure OrchSt where
  session : Option Sess
  conv_log : List LogEntry := []
  deriving Repr, DecidableEq

/-- Externally visible actions of the message-handling collaborators: a
classification call on a text, a preference-extraction call, an outbound
send. -/
inductive Event where
  | classified : String → Event
  | extracted : String → String → Event
  | sent : String → MsgContent → Event
  deriving Repr, DecidableEq

/-- `ConversationManager.resolve_sender` (`src/conversation/manager.py`
lines 40-42) over `Database.get_member_by_imessage_id`: the first configured
member whose channel address equals the message's sender id. -/
def resolve_sender (members : List Member) (sender_id : String) : Option Member :=
  members.find? (fun m => m.imessage_id == sender_id)

/-- `Orchestrator.handle_incoming_message` (`src/orchestrator.py` lines
148-168).  The downstream handlers `_handle_session_message`,
`_handle_idle_message` and `preference_engine.extract_and_store` are taken
as parameters (they involve further collaborator calls); the embedding
composes them exactly as the source does: resolve the sender and stop with
no effect for an unknown sender; otherwise append the incoming message to
the conversation log, then either route into the session or extract
preferences passively and handle the idle message. -/
def handle_incoming_message
    (sessionHandler : Member → InMsg → OrchSt → OrchSt × List Event)
    (idleHandler : Member → InMsg → OrchSt → OrchSt × List Event)
    (extractor : Member → String → OrchSt → OrchSt × List Event)
    (members : List Member) (msg : InMsg) (st : OrchSt) : OrchSt × List Event :=
  match resolve_sender members msg.sender_id with
  | none => (st, [])
  | some member =>
      let entry : LogEntry :=
        { session_id := st.session.map (fun s => s.id)
          member_id := member.id
          direction := "incoming"
          message_text := msg.text
          imessage_rowid := some msg.rowid }
      let st1 := { st with conv_log := st.conv_log ++ [entry] }
      match st1.session with
      | some _ => sessionHandler member msg st1
      | none =>
          let r2 := extractor member msg.text st1
          let r3 := idleHandler member msg r2.1
          (r3.1, r2.2 ++ r3.2)

end Nibbl

namespace Nibbl

/-! ## Helper lemmas -/

/-- The unit stored under a key of a merge dict. -/
def unitAt (m : List (String × Ingredient)) (k : String) : Option String :=
  (assocFind m k).map (fun i => i.unit)

theorem assocFind_nil {α : Type} (k : String) : assocFind ([] : List (String × α)) k = none := rfl

theorem assocFind_cons {α : Type} (p : String × α) (m : List (String × α)) (k : String) :
    assocFind (p :: m) k = if p.1 = k then some p.2 else assocFind m k := by
  by_cases h : p.1 = k <;> simp [assocFind, List.find?, h]

theorem assocFind_append {α : Type} (m l : List (String × α)) (k : String) :
    assocFind (m ++ l) k =
      match assocFind m k with
      | some v => some v
      | none => assocFind l k := by
  induction m with
  | nil => simp [assocFind_nil]
  | cons p m ih =>
      by_cases h : p.1 = k <;> simp [assocFind_cons, h, ih]

theorem assocReplace_cons {α : Type} (p : String × α) (m : List (String × α))
    (k' : String) (v : α) :
    assocReplace (p :: m) k' v =
      (if p.1 = k' then (k', v) else p) :: assocReplace m k' v := rfl

theorem assocFind_assocReplace {α : Type} (m : List (String × α)) (k' k : String) (v : α) :
    assocFind (assocReplace m k' v) k =
      if k = k' then (assocFind m k).map (fun _ => v) else assocFind m k := by
  induction m with
  | nil => by_cases h : k = k' <;> simp [assocFind_nil, assocReplace, h]
  | cons p m ih =>
      rw [assocReplace_cons]
      by_cases hpk : p.1 = k <;> by_cases h1 : p.1 = k'
      · have hkk : k = k' := by rw [← hpk, h1]
        simp [assocFind_cons, hpk, h1, hkk]
      · have hkk : ¬ k = k' := fun hc => h1 (by rw [hpk, hc])
        simp [assocFind_cons, hpk, h1, hkk]
      · have hkk : ¬ k = k' := fun hc => hpk (by rw [h1, hc])
        have hvk : ¬ (k' = k) := fun hc => hkk hc.symm
        simp [assocFind_cons, hpk, h1, hkk, hvk, ih]
      · simp [assocFind_cons, hpk, h1, ih]

theorem unitAt_cartMergeStep (m : List (String × Ingredient)) (x : Ingredient) (k : String) :
    unitAt (cartMergeStep m x) k =
      match unitAt m k with
      | some u => some u
      | none => if ikey x = k then some x.unit else none := by
  unfold unitAt cartMergeStep
  cases hfind : assocFind m (ikey x) with
  | none =>
      simp only [hfind]
      rw [assocFind_append]
      cases hk : assocFind m k with
      | none =>
          by_cases hkx : ikey x = k <;> simp [hk, hkx, assocFind_cons, assocFind_nil]
      | some i => simp [hk]
  | some ex =>
      simp only [hfind]
      by_cases hu : ex.unit = x.unit
      · simp only [if_pos hu]
        rw [assocFind_assocReplace]
        by_cases hkx : k = ikey x
        · subst hkx
          simp [hfind, hu]
        · rw [if_neg hkx]
          have hxk : ¬ ikey x = k := fun hc => hkx hc.symm
          cases hk : assocFind m k <;> simp [hk, hxk]
      · simp only [if_neg hu]
        cases hk : assocFind m k with
        | some i => simp [hk]
        | none =>
            by_cases hkx : ikey x = k
            · rw [hkx, hk] at hfind; cases hfind
            · simp [hk, hkx]

theorem unitAt_foldl (xs : List Ingredient) (acc : List (String × Ingredient)) (k : String) :
    unitAt (xs.foldl cartMergeStep acc) k =
      match unitAt acc k with
      | some u => some u
      | none => (xs.find? (fun x => ikey x = k)).map (fun x => x.unit) := by
  induction xs generalizing acc with
  | nil => cases h : unitAt acc k <;> simp [h]
  | cons x xs ih =>
      rw [List.foldl_cons, ih, unitAt_cartMergeStep]
      cases h : unitAt acc k with
      | some u => simp [h]
      | none =>
          simp only [h]
          by_cases hx : ikey x = k
          · rw [List.find?_cons_of_pos _ (by simp [hx])]
            simp [hx]
          · rw [List.find?_cons_of_neg _ (by simp [hx])]
            simp [hx]

theorem cartMergeStep_noop (m : List (String × Ingredient)) (ing ex : Ingredient)
    (hfind : assocFind m (ikey ing) = some ex) (hu : ¬ ex.unit = ing.unit) :
    cartMergeStep m ing = m := by
  unfold cartMergeStep
  simp [hfind, hu]

/-! ## Claim theorems -/

/-- C2: in the cart-fill merge, the first-seen unit for a (case-insensitive,
trimmed) name is permanent: a later entry with the same grouping key but a
unit different from that of the first entry carrying the key contributes
nothing to the merged output — removing it from the input leaves the merge
result unchanged (its quantity is neither summed nor kept separate). -/
theorem C2_cart_merge_first_unit_permanent (xs ys : List Ingredient)
    (ing x0 : Ingredient)
    (h1 : xs.find? (fun x => ikey x = ikey ing) = some x0)
    (h2 : ¬ x0.unit = ing.unit) :
    merge_ingredients (xs ++ ing :: ys) = merge_ingredients (xs ++ ys) := by
  unfold merge_ingredients
  rw [List.foldl_append, List.foldl_append, List.foldl_cons]
  have hunit : unitAt (xs.foldl cartMergeStep []) (ikey ing) = some x0.unit := by
    rw [unitAt_foldl]
    simp [unitAt, assocFind_nil, h1]
  obtain ⟨ex, hex, hexu⟩ :
      ∃ ex, assocFind (xs.foldl cartMergeStep []) (ikey ing) = some ex ∧
        ex.unit = x0.unit := by
    unfold unitAt at hunit
    cases hfind : assocFind (xs.foldl cartMergeStep []) (ikey ing) with
    | none => rw [hfind] at hunit; cases hunit
    | some e => rw [hfind] at hunit; exact ⟨e, rfl, by simpa using hunit⟩
  rw [cartMergeStep_noop _ _ ex hex (by rw [hexu]; exact h2)]

/-- C2 witness: water 200 ml followed by water 1 l merges exactly like
water 200 ml alone — one entry of 200 ml. -/
theorem C2_cart_merge_first_unit_permanent_witness :
    merge_ingredients
        ([{ name := "water", quantity := 200, unit := "ml" }] ++
          { name := "water", quantity := 1, unit := "l" } :: []) =
      merge_ingredients
        ([{ name := "water", quantity := 200, unit := "ml" }] ++ []) ∧
    merge_ingredients
        ([{ name := "water", quantity := 200, unit := "ml" }] ++ []) =
      [{ name := "water", quantity := 200, unit := "ml" }] :=
  ⟨C2_cart_merge_first_unit_permanent
      [{ name := "water", quantity := 200, unit := "ml" }] []
      { name := "water", quantity := 1, unit := "l" }
      { name := "water", quantity := 200, unit := "ml" }
      (by decide) (by decide),
   by decide⟩

/-- C3: evaluated at water 200 ml + water 1 l, the display merge of
`format_full_ingredient_list` collapses to a single 200 ml entry (the
`setdefault` branch silently drops the different-unit entry), whereas the
exporter's `_dedup_ingredients` keeps the two units as separate entries as
the specification demands of the export/display merge. -/
theorem C3_display_merge_drops_different_unit :
    format_full_merge
        [[{ name := "water", quantity := 200, unit := "ml" }],
         [{ name := "water", quantity := 1, unit := "l" }]] =
      [{ name := "water", quantity := 200, unit := "ml" }] ∧
    dedup_ingredients
        [{ name := "water", quantity := 200, unit := "ml" },
         { name := "water", quantity := 1, unit := "l" }] =
      [{ name := "water", quantity := 200, unit := "ml" },
       { name := "water", quantity := 1, unit := "l" }] :=
  ⟨by decide, by decide⟩

/-- C9 counterexample: merging two already-available water entries (same
name, same unit) through the display merge of `format_full_ingredient_list`
yields an entry whose already-available flag is `false`, not the claimed
logical AND (`true`): the merged copy is constructed without the
`already_available` argument, so it takes the dataclass default. -/
theorem C9_display_merge_available_counterexample :
    (format_full_merge
        [[{ name := "water", quantity := 200, unit := "ml",
            already_available := true }],
         [{ name := "water", quantity := 200, unit := "ml",
            already_available := true }]]).map
      (fun i => i.already_available) = [false] := by decide

/-- C9 (amended): merging two entries with the same grouping key and the
same unit ANDs both the optional and the already-available flag in the
cart-fill merge, while the display merge ANDs the optional flag but resets
the merged entry's already-available flag to `false`. -/
theorem C9_flag_merge (a b : Ingredient) (h1 : ikey a = ikey b)
    (h2 : a.unit = b.unit) :
    merge_ingredients [a, b] =
      [{ name := b.name, quantity := a.quantity + b.quantity, unit := b.unit
         category := b.category, optional := b.optional && a.optional
         already_available := b.already_available && a.already_available }] ∧
    format_full_merge [[a], [b]] =
      [{ name := b.name, quantity := a.quantity + b.quantity, unit := b.unit
         category := b.category, optional := b.optional && a.optional }] := by
  constructor
  · simp [merge_ingredients, cartMergeStep, assocFind_cons, assocFind_nil,
      assocReplace, h1, h2]
  · simp [format_full_merge, formatMergeStep, assocFind_cons, assocFind_nil,
      assocReplace, h1, h2]

/-- C9 witness: optional true+false gives false and available true+true
gives true in the cart-fill merge; the display merge agrees on optional but
resets already-available to false. -/
theorem C9_flag_merge_witness :
    merge_ingredients
        [{ name := "zout", quantity := 1, unit := "tl", optional := true,
           already_available := true },
         { name := "zout", quantity := 1, unit := "tl", optional := false,
           already_available := true }] =
      [{ name := "zout", quantity := (1 : ℚ) + 1, unit := "tl"
         category := "other", optional := false, already_available := true }] ∧
    format_full_merge
        [[{ name := "zout", quantity := 1, unit := "tl", optional := true,
            already_available := true }],
         [{ name := "zout", quantity := 1, unit := "tl", optional := false,
            already_available := true }]] =
      [{ name := "zout", quantity := (1 : ℚ) + 1, unit := "tl"
         category := "other", optional := false, already_available := false }] := by
  have h := C9_flag_merge
    { name := "zout", quantity := 1, unit := "tl", optional := true,
      already_available := true }
    { name := "zout", quantity := 1, unit := "tl", optional := false,
      already_available := true }
    (by decide) (by decide)
  simpa using h

/-- C4: for each extracted fact, reconciliation searches the member's
existing preferences for an exactly equal category whose detail is a
case-insensitive substring of the new detail or vice versa; on a match (all
stored rows carry an id) it updates the matched row's confidence in place to
`min(1.0, max(existing_confidence, new_confidence) + 0.1)` and inserts no
row; on no match it persists a new row and appends it to the in-run existing
set, so a later fact of the same category whose detail is substring-related
to it cannot insert another row. -/
theorem C4_preference_reconciliation (mid : String) (st : PrefState) (f : Fact)
    (hids : ∀ p ∈ st.existing, p.id.isSome) :
    (∀ m, find_matching st.existing f.detail f.category = some m →
        storeFact mid st f =
          { st with db := (updateConfidence st.db (m.id.getD 0)
              (min 1 (max m.confidence (f.confidence.getD (1/2)) + 1/10))) }) ∧
    (find_matching st.existing f.detail f.category = none →
        storeFact mid st f =
          { existing := st.existing ++ [newPref mid st f]
            db := st.db ++ [newPref mid st f]
            nextId := st.nextId + 1
            new_prefs := st.new_prefs ++ [newPref mid st f] }) ∧
    (find_matching st.existing f.detail f.category = none →
        ∀ f' : Fact, f'.category = f.category →
          (strContains (pyLower f.detail) (pyLower f'.detail) ∨
           strContains (pyLower f'.detail) (pyLower f.detail)) →
          ((storeFact mid (storeFact mid st f) f').db).length =
            ((storeFact mid st f).db).length) := by
  have hstep : find_matching st.existing f.detail f.category = none →
      storeFact mid st f =
        { existing := st.existing ++ [newPref mid st f]
          db := st.db ++ [newPref mid st f]
          nextId := st.nextId + 1
          new_prefs := st.new_prefs ++ [newPref mid st f] } := by
    intro hnone
    simp only [storeFact, hnone]
  refine ⟨?_, hstep, ?_⟩
  · intro m hm
    have hmem : m ∈ st.existing := List.mem_of_find?_eq_some hm
    obtain ⟨i, hi⟩ := Option.isSome_iff_exists.mp (hids m hmem)
    simp only [storeFact, hm, hi, Option.getD_some]
  · intro hnone f' hcat hsub
    rw [hstep hnone]
    set st1 : PrefState :=
      { existing := st.existing ++ [newPref mid st f]
        db := st.db ++ [newPref mid st f]
        nextId := st.nextId + 1
        new_prefs := st.new_prefs ++ [newPref mid st f] } with hst1
    have hpred :
        ∃ q ∈ st1.existing,
          (q.category == f'.category &&
            (strContains (pyLower q.detail) (pyLower f'.detail) ||
             strContains (pyLower f'.detail) (pyLower q.detail))) = true := by
      refine ⟨newPref mid st f, by simp [hst1, newPref], ?_⟩
      rcases hsub with h | h
      · simp [newPref, h, hcat]
      · simp [newPref, h, hcat]
    have hisSome :
        (find_matching st1.existing f'.detail f'.category).isSome := by
      unfold find_matching
      exact List.find?_isSome.mpr hpred
    obtain ⟨q, hq⟩ := Option.isSome_iff_exists.mp hisSome
    have hqmem : q ∈ st1.existing := by
      unfold find_matching at hq
      exact List.mem_of_find?_eq_some hq
    have hqid : q.id.isSome := by
      have hcases : q ∈ st.existing ∨ q = newPref mid st f := by
        simpa [hst1] using hqmem
      rcases hcases with hin | hin
      · exact hids q hin
      · subst hin
        simp [newPref]
    obtain ⟨j, hj⟩ := Option.isSome_iff_exists.mp hqid
    simp only [storeFact, hq, hj]
    simp [updateConfidence]

/-- C4 witness: an existing "likes: pasta" row at confidence 0.6 matched by
a new "fresh pasta" fact at confidence 0.8 is escalated in place to
0.9 = min(1, max(0.6, 0.8) + 0.1), with no new row. -/
theorem C4_preference_reconciliation_witness :
    storeFact "m1"
      { existing := [⟨"m1", "likes", "pasta", 3/5, some 1⟩]
        db := [⟨"m1", "likes", "pasta", 3/5, some 1⟩]
        nextId := 2, new_prefs := [] }
      ⟨"likes", "fresh pasta", some (4/5)⟩ =
      { existing := [⟨"m1", "likes", "pasta", 3/5, some 1⟩]
        db := [⟨"m1", "likes", "pasta", 9/10, some 1⟩]
        nextId := 2, new_prefs := [] } := by
  have h := (C4_preference_reconciliation "m1"
    { existing := [⟨"m1", "likes", "pasta", 3/5, some 1⟩]
      db := [⟨"m1", "likes", "pasta", 3/5, some 1⟩]
      nextId := 2, new_prefs := [] }
    ⟨"likes", "fresh pasta", some (4/5)⟩
    (by decide)).1 ⟨"m1", "likes", "pasta", 3/5, some 1⟩ (by rfl)
  rw [h]
  norm_num [updateConfidence]

/-- C5: for an ingredient that is not already available and for which the
selection collaborator returned a result (and the catalog add succeeds), the
cart filler accepts the selection if and only if the product id is present
(truthy) and the confidence is strictly greater than 0.5.  On acceptance the
product is added to the catalog cart with quantity equal to the returned
count and the ingredient is recorded in `added` with its resolution fields
set; otherwise the ingredient is recorded in `not_found` with the
collaborator's note and nothing is added to the cart. -/
theorem C5_cart_acceptance (o : CartOracle) (st : CartState) (ing : Ingredient)
    (m : ProductMatch) (c' : List (String × ProductMatch))
    (hav : ing.already_available = false)
    (hsm : search_and_match o st.cache ing = (some m, c'))
    (hadd : o.add (m.product_id.getD "") (m.count.getD 1) = none) :
    ((truthyStr m.product_id = true ∧ (1/2 : ℚ) < m.confidence.getD 0) →
      fillStep o st ing =
        { st with
          cache := c'
          cart := st.cart ++ [(m.product_id.getD "", m.count.getD 1)]
          added := (st.added ++
            [({ ing with
                  picnic_product_id := m.product_id
                  picnic_product_name := some (m.product_name.getD "")
                  picnic_added_to_cart := true
                  search_status := "found" }, m)]) }) ∧
    (¬ (truthyStr m.product_id = true ∧ (1/2 : ℚ) < m.confidence.getD 0) →
      fillStep o st ing =
        { st with
          cache := c'
          not_found := (st.not_found ++
            [({ ing with search_status := "not_found" },
              m.note.getD "No match found")]) }) := by
  constructor
  · rintro ⟨h1, h2⟩
    have hacc : accepts (some m) = true := by
      show (truthyStr m.product_id &&
        decide ((1/2 : ℚ) < m.confidence.getD 0)) = true
      rw [h1, decide_eq_true h2]
      rfl
    simp only [fillStep, hav, Bool.false_eq_true, if_false, hsm, hacc, if_true, hadd]
  · intro hne
    have hacc : accepts (some m) = false := by
      show (truthyStr m.product_id &&
        decide ((1/2 : ℚ) < m.confidence.getD 0)) = false
      rcases Bool.eq_false_or_eq_true (truthyStr m.product_id) with h1 | h1
      · by_cases h2 : (1/2 : ℚ) < m.confidence.getD 0
        · exact absurd ⟨h1, h2⟩ hne
        · rw [decide_eq_false h2, Bool.and_false]
      · rw [h1]
        rfl
    simp only [fillStep, hav, Bool.false_eq_true, if_false, hsm, hacc]

/-- C5 witness: a selection with product id "p1" and confidence 0.51 is
accepted — the product is added to the cart with the returned count 2 and
recorded in `added` — while a selection with product id "p2" and confidence
exactly 0.5 is rejected and recorded in `not_found`. -/
theorem C5_cart_acceptance_witness :
    fillStep
        ⟨fun _ => ["kip"], fun _ => .ok [{ id := "p1" }],
         fun _ _ => some { product_id := some "p1", product_name := some "Kip",
                           count := some 2, confidence := some (51/100) },
         fun _ _ => none⟩
        {} { name := "kip", quantity := 500, unit := "g" } =
      { cache := [("kip", { product_id := some "p1", product_name := some "Kip",
                            count := some 2, confidence := some (51/100) })]
        cart := [("p1", 2)]
        added := [({ name := "kip", quantity := 500, unit := "g",
                     picnic_product_id := some "p1",
                     picnic_product_name := some "Kip",
                     picnic_added_to_cart := true,
                     search_status := "found" },
                   { product_id := some "p1", product_name := some "Kip",
                     count := some 2, confidence := some (51/100) })] } ∧
    fillStep
        ⟨fun _ => ["vis"], fun _ => .ok [{ id := "p2" }],
         fun _ _ => some { product_id := some "p2", confidence := some (1/2) },
         fun _ _ => none⟩
        {} { name := "vis", quantity := 300, unit := "g" } =
      { cache := [("vis", { product_id := some "p2", confidence := some (1/2) })]
        not_found := [({ name := "vis", quantity := 300, unit := "g",
                         search_status := "not_found" }, "No match found")] } := by
  constructor
  · have hA := C5_cart_acceptance
      ⟨fun _ => ["kip"], fun _ => .ok [{ id := "p1" }],
       fun _ _ => some { product_id := some "p1", product_name := some "Kip",
                         count := some 2, confidence := some (51/100) },
       fun _ _ => none⟩
      {} { name := "kip", quantity := 500, unit := "g" }
      { product_id := some "p1", product_name := some "Kip",
        count := some 2, confidence := some (51/100) }
      [("kip", { product_id := some "p1", product_name := some "Kip",
                 count := some 2, confidence := some (51/100) })]
      rfl rfl rfl
    have h := hA.1 ⟨rfl, by norm_num⟩
    rw [h]
    rfl
  · have hB := C5_cart_acceptance
      ⟨fun _ => ["vis"], fun _ => .ok [{ id := "p2" }],
       fun _ _ => some { product_id := some "p2", confidence := some (1/2) },
       fun _ _ => none⟩
      {} { name := "vis", quantity := 300, unit := "g" }
      { product_id := some "p2", confidence := some (1/2) }
      [("vis", { product_id := some "p2", confidence := some (1/2) })]
      rfl rfl rfl
    have h := hB.2 (by
      rintro ⟨-, h2⟩
      simp only [Option.getD_some] at h2
      exact absurd h2 (by norm_num))
    rw [h]
    rfl

/-- C6 counterexample: a selection result with product id "p1" and
confidence 0.3 is written into the match cache although the fill loop's
acceptance condition (confidence strictly above 0.5) fails for it — the
caching guard checks only the product id. -/
theorem C6_cache_counterexample :
    (search_and_match
        ⟨fun _ => ["kip"], fun _ => .ok [{ id := "p1" }],
         fun _ _ => some { product_id := some "p1", confidence := some (3/10) },
         fun _ _ => none⟩
        [] { name := "kip", quantity := 1, unit := "g" }).2 =
      [("kip", { product_id := some "p1", confidence := some (3/10) })] ∧
    accepts (some { product_id := some "p1", confidence := some (3/10) }) = false := by
  constructor
  · rfl
  · show (truthyStr (some "p1") &&
      decide ((1/2 : ℚ) < (some ((3 : ℚ)/10)).getD 0)) = false
    rw [decide_eq_false (by
      simp only [Option.getD_some]
      norm_num), Bool.and_false]

/-- C6 (amended): on a cache miss, `_search_and_match` stores the selection
in the cache exactly when the selection is non-null and carries a truthy
product id, irrespective of its confidence — so a later cache hit may reuse
a selection that the fill loop rejected and will reject again. -/
theorem C6_cache_policy (o : CartOracle) (cache : List (String × ProductMatch))
    (ing : Ingredient) (hmiss : assocFind cache (ikey ing) = none) :
    (search_and_match o cache ing).2 =
      (match (search_and_match o cache ing).1 with
       | some m =>
           if truthyStr m.product_id then assocInsert cache (ikey ing) m
           else cache
       | none => cache) := by
  simp only [search_and_match, hmiss]
  rcases Bool.eq_false_or_eq_true
      ((gatherSearch o.searchTerm (o.terms ing) [] []).isEmpty) with hres | hres
  · simp [hres]
  · simp only [hres, Bool.false_eq_true, if_false]
    cases hsel : o.select ing
        (List.take 15 (gatherSearch o.searchTerm (o.terms ing) [] [])) with
    | none => simp
    | some m => simp

/-- C6 witness: the cache-update characterization applied to a concrete
low-confidence selection (the cache-miss hypothesis holds for the empty
cache). -/
theorem C6_cache_policy_witness :
    (search_and_match
        ⟨fun _ => ["ui"], fun _ => .ok [{ id := "p9" }],
         fun _ _ => some { product_id := some "p9", confidence := some (2/5) },
         fun _ _ => none⟩
        [] { name := "ui", quantity := 1, unit := "stuks" }).2 =
      (match (search_and_match
          ⟨fun _ => ["ui"], fun _ => .ok [{ id := "p9" }],
           fun _ _ => some { product_id := some "p9", confidence := some (2/5) },
           fun _ _ => none⟩
          [] { name := "ui", quantity := 1, unit := "stuks" }).1 with
       | some m =>
           if truthyStr m.product_id then
             assocInsert [] (ikey { name := "ui", quantity := 1, unit := "stuks" }) m
           else []
       | none => []) :=
  C6_cache_policy
    ⟨fun _ => ["ui"], fun _ => .ok [{ id := "p9" }],
     fun _ _ => some { product_id := some "p9", confidence := some (2/5) },
     fun _ _ => none⟩
    [] { name := "ui", quantity := 1, unit := "stuks" } rfl

/-- C7: the timeout evaluator forces exactly two transitions, both measured
from `state_entered_at`: `collecting_preferences` past the preference
timeout is forced to `generating_plan` (regardless of the responded set and
the collected wishes), `checking_pantry` past the pantry timeout is forced
to `filling_cart`, and the session is never transitioned in any other state;
un-marked (not already-available) ingredients are never placed in the
skipped partition of the subsequent cart fill. -/
theorem C7_timeout_transitions (cfg : AgentConfig) (now : ℚ) (s : Sess) :
    (check_timeouts cfg now (some s) = some SessionState.generating_plan ↔
      s.state = SessionState.collecting_preferences ∧
        now - s.state_entered_at > cfg.preference_timeout_hours) ∧
    (check_timeouts cfg now (some s) = some SessionState.filling_cart ↔
      s.state = SessionState.checking_pantry ∧
        now - s.state_entered_at > cfg.pantry_timeout_hours) ∧
    (¬ s.state = SessionState.collecting_preferences →
      ¬ s.state = SessionState.checking_pantry →
      check_timeouts cfg now (some s) = none) ∧
    (∀ (r : List String) (w : List (String × List String)),
      check_timeouts cfg now
          (some { s with members_responded := r, collected_wishes := w }) =
        check_timeouts cfg now (some s)) ∧
    (∀ (o : CartOracle) (st : CartState) (ing : Ingredient),
      ing.already_available = false → (fillStep o st ing).skipped = st.skipped) := by
  refine ⟨?_, ?_, ?_, ?_, ?_⟩
  · constructor
    · intro h
      simp only [check_timeouts] at h
      by_cases hc1 : s.state = SessionState.collecting_preferences ∧
          now - s.state_entered_at > cfg.preference_timeout_hours
      · exact hc1
      · rw [if_neg hc1] at h
        by_cases hc2 : s.state = SessionState.checking_pantry ∧
            now - s.state_entered_at > cfg.pantry_timeout_hours
        · rw [if_pos hc2] at h
          exact absurd (Option.some.inj h) (by decide)
        · rw [if_neg hc2] at h
          exact Option.noConfusion h
    · intro hc
      simp only [check_timeouts]
      rw [if_pos hc]
  · constructor
    · intro h
      simp only [check_timeouts] at h
      by_cases hc1 : s.state = SessionState.collecting_preferences ∧
          now - s.state_entered_at > cfg.preference_timeout_hours
      · rw [if_pos hc1] at h
        exact absurd (Option.some.inj h) (by decide)
      · rw [if_neg hc1] at h
        by_cases hc2 : s.state = SessionState.checking_pantry ∧
            now - s.state_entered_at > cfg.pantry_timeout_hours
        · exact hc2
        · rw [if_neg hc2] at h
          exact Option.noConfusion h
    · intro hc
      simp only [check_timeouts]
      rw [if_neg (fun hcc =>
        absurd ((hcc.1).symm.trans hc.1) (by decide)), if_pos hc]
  · intro h1 h2
    simp only [check_timeouts]
    rw [if_neg (fun hc => h1 hc.1), if_neg (fun hc => h2 hc.1)]
  · intro r w
    rfl
  · intro o st ing hav
    simp only [fillStep, hav, Bool.false_eq_true, if_false]
    split
    · split
      · split
        · rfl
        · rfl
      · rfl
    · rfl

/-- C7 witness: a session stuck in `generating_plan` is not transitioned by
the timeout evaluator even long past both configured timeouts. -/
theorem C7_timeout_transitions_witness :
    check_timeouts { preference_timeout_hours := 4, pantry_timeout_hours := 2 }
        100 (some { id := "s1", state := SessionState.generating_plan }) = none :=
  (C7_timeout_transitions
    { preference_timeout_hours := 4, pantry_timeout_hours := 2 } 100
    { id := "s1", state := SessionState.generating_plan }).2.2.1
    (by decide) (by decide)

/-- C1: a trigger that arrives while a session exists in any non-idle,
non-completed state is rejected: the active session is returned unchanged
(no new session is created) and the only outbound message is the
session-active notice to the triggering member, if any. -/
theorem C1_single_active_session (members : List Member) (newId : String)
    (now : ℚ) (s : Sess) (trig : Option Member)
    (h1 : ¬ s.state = SessionState.idle)
    (h2 : ¬ s.state = SessionState.completed) :
    start_session members newId now (some s) trig =
      (some s,
       match trig with
       | some m => [(m.imessage_id, MsgContent.session_active)]
       | none => []) := by
  simp only [start_session]
  rw [if_pos ⟨h1, h2⟩]

/-- C1 witness: a trigger during `generating_plan` leaves the session
untouched and creates nothing. -/
theorem C1_single_active_session_witness :
    start_session [] "new-id" 7
        (some { id := "s1", state := SessionState.generating_plan }) none =
      (some { id := "s1", state := SessionState.generating_plan }, []) :=
  C1_single_active_session [] "new-id" 7
    { id := "s1", state := SessionState.generating_plan } none
    (by decide) (by decide)

/-- C8 counterexample: a failed revision does not re-display the existing
plan — the messages sent are the adjustment notice and the revision-failed
notice, and no plan-display message is among them; the stored recipes and
the session are left unchanged. -/
theorem C8_failed_revision_counterexample :
    handle_change_request [⟨"r1", "Pasta", some "s1", [], false⟩]
        { id := "s1", state := SessionState.awaiting_approval }
        ⟨"m1", "Ann", "+31", Role.parent⟩
        (some ⟨"m1", "Ann", "+31", Role.parent⟩) 1 (.error "boom") =
      ([⟨"r1", "Pasta", some "s1", [], false⟩],
       { id := "s1", state := SessionState.awaiting_approval },
       [("+31", MsgContent.adjusting_plan), ("+31", MsgContent.revision_failed)]) ∧
    ¬ (("+31", MsgContent.plan_display
          (recipes_for_session [⟨"r1", "Pasta", some "s1", [], false⟩] "s1")) ∈
        (handle_change_request [⟨"r1", "Pasta", some "s1", [], false⟩]
          { id := "s1", state := SessionState.awaiting_approval }
          ⟨"m1", "Ann", "+31", Role.parent⟩
          (some ⟨"m1", "Ann", "+31", Role.parent⟩) 1 (.error "boom")).2.2) := by
  constructor
  · rfl
  · decide

/-- C8 (amended): during approval, a change request with a successful
non-empty revision deletes the session's stored recipes first, persists the
revised set tagged with the session id, re-enters `awaiting_approval` and
displays the revised plan; an empty revision leaves the stored recipes
unchanged and re-displays the unchanged existing plan re-entering
`awaiting_approval`; a failed revision leaves the stored recipes and the
session unchanged and sends a revision-failed notice instead of
re-displaying the plan. -/
theorem C8_revision_handling (db : List RecipeM) (s : Sess)
    (member fp : Member) (now : ℚ) :
    (∀ rs : List RecipeM, ¬ rs = [] →
      handle_change_request db s member (some fp) now (.ok rs) =
        (delete_recipes_for_session db s.id ++
           rs.map (fun r => { r with session_id := some s.id }),
         transition_to
           { s with
             meal_plan :=
               (some (rs.map (fun r => { r with session_id := some s.id }))) }
           SessionState.awaiting_approval now,
         [(member.imessage_id, MsgContent.adjusting_plan),
          (fp.imessage_id, MsgContent.plan_display
            (rs.map (fun r => { r with session_id := some s.id }))),
          (fp.imessage_id, MsgContent.ask_approval)])) ∧
    (handle_change_request db s member (some fp) now (.ok []) =
      (db,
       transition_to s SessionState.awaiting_approval now,
       [(member.imessage_id, MsgContent.adjusting_plan),
        (fp.imessage_id, MsgContent.plan_display (recipes_for_session db s.id)),
        (fp.imessage_id, MsgContent.ask_approval)])) ∧
    (∀ e : String, handle_change_request db s member (some fp) now (.error e) =
      (db, s,
       [(member.imessage_id, MsgContent.adjusting_plan),
        (member.imessage_id, MsgContent.revision_failed)])) := by
  refine ⟨?_, ?_, ?_⟩
  · intro rs hrs
    have hempty : rs.isEmpty = false := by
      cases rs with
      | nil => exact absurd rfl hrs
      | cons a l => rfl
    simp only [handle_change_request, hempty, Bool.false_eq_true, if_false,
      enter_awaiting_approval]
    rfl
  · rfl
  · intro e
    rfl

/-- C8 witness: the non-empty successful revision case evaluated at a
concrete session with one stored recipe and one revised recipe. -/
theorem C8_revision_handling_witness :
    handle_change_request [⟨"r1", "Pasta", some "s1", [], false⟩]
        { id := "s1", state := SessionState.awaiting_approval }
        ⟨"m1", "Ann", "+31", Role.parent⟩
        (some ⟨"m1", "Ann", "+31", Role.parent⟩) 2
        (.ok [⟨"r2", "Curry", none, [], false⟩]) =
      (delete_recipes_for_session [⟨"r1", "Pasta", some "s1", [], false⟩] "s1" ++
         [(⟨"r2", "Curry", none, [], false⟩ : RecipeM)].map
           (fun r => { r with session_id := some "s1" }),
       transition_to
         { ({ id := "s1", state := SessionState.awaiting_approval } : Sess) with
             meal_plan :=
               (some ([(⟨"r2", "Curry", none, [], false⟩ : RecipeM)].map
                 (fun r => { r with session_id := some "s1" }))) }
         SessionState.awaiting_approval 2,
       [("+31", MsgContent.adjusting_plan),
        ("+31", MsgContent.plan_display
          ([(⟨"r2", "Curry", none, [], false⟩ : RecipeM)].map
            (fun r => { r with session_id := some "s1" }))),
        ("+31", MsgContent.ask_approval)]) := by
  have h := C8_revision_handling [⟨"r1", "Pasta", some "s1", [], false⟩]
    { id := "s1", state := SessionState.awaiting_approval }
    ⟨"m1", "Ann", "+31", Role.parent⟩ ⟨"m1", "Ann", "+31", Role.parent⟩ 2
  exact h.1 [⟨"r2", "Curry", none, [], false⟩] (by decide)

/-- C10: a message whose sender id does not resolve to a configured family
member is dropped with no observable effect: whatever the downstream
handlers would do, the orchestrator state (session and conversation log) is
returned unchanged and no collaborator call or outbound send happens. -/
theorem C10_unknown_sender_no_effect
    (sessionHandler idleHandler : Member → InMsg → OrchSt → OrchSt × List Event)
    (extractor : Member → String → OrchSt → OrchSt × List Event)
    (members : List Member) (msg : InMsg) (st : OrchSt)
    (h : resolve_sender members msg.sender_id = none) :
    handle_incoming_message sessionHandler idleHandler extractor members msg st =
      (st, []) := by
  unfold handle_incoming_message
  rw [h]

/-- C10 witness: a message from an unconfigured number is a complete no-op
even with handlers that would log, classify and send. -/
theorem C10_unknown_sender_no_effect_witness :
    handle_incoming_message
        (fun _ _ st => (st, [Event.classified "in-session"]))
        (fun _ _ st => (st, [Event.classified "idle"]))
        (fun m t st => (st, [Event.extracted m.id t]))
        [⟨"m1", "Ann", "+31612345678", Role.parent⟩]
        ⟨5, "hoi", "+31600000000"⟩
        { session := none, conv_log := [] } =
      ({ session := none, conv_log := [] }, []) :=
  C10_unknown_sender_no_effect
    (fun _ _ st => (st, [Event.classified "in-session"]))
    (fun _ _ st => (st, [Event.classified "idle"]))
    (fun m t st => (st, [Event.extracted m.id t]))
    [⟨"m1", "Ann", "+31612345678", Role.parent⟩]
    ⟨5, "hoi", "+31600000000"⟩
    { session := none, conv_log := [] }
    (by decide)

end Nibbl
